import Mathlib

/-!
Verification of `turbinia/workers/bulk_extractor.py` (class `BulkExtractorTask`):
a shallow embedding of `run` and `generate_summary_report` together with the
pieces of `xml.etree.ElementTree` and `turbinia.lib.text_formatter` they use,
and proofs of the specification's testable properties over that embedding.
-/

namespace BulkExtractor

/-- An XML element as seen by `xml.etree.ElementTree`: a tag, an optional
text payload (`Element.text` is `None` or a string), and a list of child
elements in document order.  A parsed document is represented by its root
element. -/
inductive Xml where
  | elem (tag : String) (text : Option String) (children : List Xml)

/-- The tag of an element. -/
def Xml.tag : Xml → String
  | .elem t _ _ => t

/-- The `.text` attribute of an element (`None` becomes `Option.none`). -/
def Xml.text : Xml → Option String
  | .elem _ t _ => t

/-- The list of direct children of an element. -/
def Xml.children : Xml → List Xml
  | .elem _ _ c => c

/-- The method `ElementTree.find` with a simple `a/b/c` tag path, searching below the
given element: at each path level the candidate elements (kept in document
order) are replaced by those of their children carrying the level's tag, and
the first surviving element is returned.  This reproduces ElementTree's
"first match in document order" semantics for plain tag paths. -/
def Xml.find (x : Xml) (path : List String) : Option Xml :=
  (path.foldl (fun acc t => acc.flatMap (fun c => c.children.filter (fun d => d.tag == t))) [x]).head?

/-- Document-order (preorder) traversal of a list of elements: each element is
followed by the traversal of its own children.  `Element.iter()` on `x` is
`iterList [x]`: the element itself first, then all descendants. -/
def iterList : List Xml → List Xml
  | [] => []
  | Xml.elem t txt ch :: xs => Xml.elem t txt ch :: (iterList ch ++ iterList xs)
termination_by l => sizeOf l
decreasing_by
  all_goals (simp_wf; try omega)

/-- The method `Element.iter()`: the element itself, then every descendant in document
order. -/
def Xml.iter (x : Xml) : List Xml :=
  iterList [x]

/-- Modelled from the spec: `turbinia.lib.text_formatter.heading4`, a fixed
section-heading marker applied to an already-extracted string (the module
itself is outside this unit; the spec fixes only that heading levels and
bullet markers form a small fixed markup vocabulary). -/
def heading4 (s : String) : String :=
  "#### " ++ s

/-- Modelled from the spec: `turbinia.lib.text_formatter.heading5`, the
subsection-heading marker of the fixed markup vocabulary. -/
def heading5 (s : String) : String :=
  "##### " ++ s

/-- Modelled from the spec: `turbinia.lib.text_formatter.bullet`, the
bullet-line marker of the fixed markup vocabulary. -/
def bullet (s : String) : String :=
  "* " ++ s

/-- Rendering of an `Element.text` value by `str.format`: a string is kept
as is, Python's `None` prints as `"None"`. -/
def formatText : Option String → String
  | some s => s
  | none => "None"

/-- The numeric value of a run of decimal digit characters. -/
def digitsToNat (l : List Char) : Nat :=
  l.foldl (fun a c => a * 10 + (c.toNat - 48)) 0

/-- Python's `int()` applied to `Element.text`: fails (a `TypeError`) on
`None`; on a string, surrounding whitespace is stripped and an optional sign
followed by a nonempty run of decimal digits is accepted, anything else fails
(a `ValueError`).  (Underscore digit grouping is not modelled; no claim
depends on it.) -/
def pyInt (s : Option String) : Option Int :=
  match s with
  | none => none
  | some str =>
    let t := ((str.toList.dropWhile Char.isWhitespace).reverse.dropWhile
      Char.isWhitespace).reverse
    match t with
    | '-' :: digits =>
      if digits ≠ [] ∧ digits.all Char.isDigit then some (-(digitsToNat digits : Int)) else none
    | '+' :: digits =>
      if digits ≠ [] ∧ digits.all Char.isDigit then some (digitsToNat digits : Int) else none
    | digits =>
      if digits ≠ [] ∧ digits.all Char.isDigit then some (digitsToNat digits : Int) else none

/-- How the report file at `<output_file_path>/report.xml` presents itself to
`generate_summary_report`: the file may be absent (`os.path.exists` false),
present but rejected by `xml_tree.parse`, or parsed into a document tree
(represented by its root element). -/
inductive ReportFile where
  | absent
  | unparseable
  | parsed (doc : Xml)

/-- The Python exceptions that escape `generate_summary_report` uncaught:
`xml.etree.ElementTree.ParseError` from `xml_tree.parse`, a
`ValueError`/`TypeError` from `int(count.text)`, and `StopIteration` from an
explicit `next` on the exhausted feature iterator.  (The body's
`try/except` catches only `AttributeError`.) -/
inductive PyError where
  | parseError
  | convError
  | stopIteration
deriving DecidableEq

/-- Outcome of the `try`-block body of `generate_summary_report`: normal
completion, a caught `AttributeError` (from `.text` on a failed `find`),
or one of the uncaught exceptions. -/
inductive ExtOutcome where
  | ok
  | attrError
  | convError
  | stopIteration
deriving DecidableEq

/-- The `for f in feature_iter` loop of `generate_summary_report`: the cursor
walks the iterator's remaining items; on a `feature_file` tag the next two
items are consumed positionally as the name and count elements, one bullet is
appended, and `int(count.text)` is accumulated.  The explicit `next` calls
raise `StopIteration` when the iterator is exhausted, and `int` raises on a
non-decimal count text; both escape the surrounding `try` (which catches only
`AttributeError`).  Returns the findings list, the running count, and how the
loop ended. -/
def featureLoop : List Xml → List String → Int → List String × Int × ExtOutcome
  | [], findings, c => (findings, c, .ok)
  | f :: rest, findings, c =>
    if f.tag == "feature_file" then
      match rest with
      | name :: count :: rest2 =>
        let findings2 := findings ++ [bullet (formatText name.text ++ ":" ++ formatText count.text)]
        match pyInt count.text with
        | none => (findings2, c, .convError)
        | some n => featureLoop rest2 findings2 (c + n)
      | _ => (findings, c, .stopIteration)
    else
      featureLoop rest findings c

/-- The `try`-block body of `generate_summary_report` on a parsed document:
append the two headings, then the four metadata bullets in order (a failed
`find` makes the `.text` access raise `AttributeError`, so the bullet under
construction is not appended and extraction stops there), then either walk the
`feature_files` section with `featureLoop` (after appending the
`Scanner Results` heading) or append the fixed no-findings heading.  Returns
the findings accumulated up to the stop point, the feature count, and the
outcome. -/
def tryBody (xml : Xml) : List String × Int × ExtOutcome :=
  let findings := [heading4 "Bulk Extractor Results", heading5 "Run Summary"]
  match xml.find ["creator", "program"] with
  | none => (findings, 0, .attrError)
  | some prog =>
    match xml.find ["creator", "version"] with
    | none => (findings, 0, .attrError)
    | some ver =>
      let findings := findings ++
        [bullet ("Program: " ++ formatText prog.text ++ " - " ++ formatText ver.text)]
      match xml.find ["creator", "execution_environment", "command_line"] with
      | none => (findings, 0, .attrError)
      | some cmd =>
        let findings := findings ++ [bullet ("Command Line: " ++ formatText cmd.text)]
        match xml.find ["creator", "execution_environment", "start_time"] with
        | none => (findings, 0, .attrError)
        | some st =>
          let findings := findings ++ [bullet ("Start Time: " ++ formatText st.text)]
          match xml.find ["report", "elapsed_seconds"] with
          | none => (findings, 0, .attrError)
          | some el =>
            let findings := findings ++ [bullet ("Elapsed Time: " ++ formatText el.text)]
            match xml.find ["feature_files"] with
            | some ff =>
              featureLoop ff.iter (findings ++ [heading5 "Scanner Results"]) 0
            | none =>
              (findings ++ [heading5 "There are no findings to report."], 0, .ok)

/-- The message of the `AttributeError` raised by `.text` on a failed `find`
(Python: attribute access on `None`). -/
def attrErrMsg : String :=
  "'NoneType' object has no attribute 'text'"

/-- What a successful call to `generate_summary_report` produces: the joined
report text, the summary string, and the diagnostic warnings written to the
module logger during the call. -/
structure GsrResult where
  report : String
  summary : String
  warnings : List String
deriving DecidableEq

/-- The method `BulkExtractorTask.generate_summary_report`, as a function of how the
report file presents itself: absent file returns the fixed fallback pair; an
unparseable file propagates `ParseError`; otherwise the `try`-block runs, a
caught `AttributeError` only logs a warning, an uncaught exception escapes,
and on the non-escaping paths the summary is formatted from the accumulated
count and the report joins the findings with newlines. -/
def generate_summary_report (file : ReportFile) : Except PyError GsrResult :=
  match file with
  | .absent =>
    let report := "Execution successful, but the report is not available."
    .ok ⟨report, report, []⟩
  | .unparseable => .error .parseError
  | .parsed doc =>
    match tryBody doc with
    | (_, _, .convError) => .error .convError
    | (_, _, .stopIteration) => .error .stopIteration
    | (findings, features_count, .ok) =>
      .ok ⟨String.intercalate "\n" findings,
        toString features_count ++ " artifacts have been extracted.", []⟩
    | (findings, features_count, .attrError) =>
      .ok ⟨String.intercalate "\n" findings,
        toString features_count ++ " artifacts have been extracted.",
        ["Error parsing feature from Bulk Extractor report: " ++ attrErrMsg]⟩

/-- Modelled from the spec: how a call to an external collaborator
(`TurbiniaTask.execute`, `Evidence.compress`) can end — normal return, a
raised `TurbiniaException` carrying a message (the only class caught by
`run`'s `except` clause), or some other raised exception. -/
inductive StepOutcome where
  | ok
  | turbiniaExc (msg : String)
  | otherExc
deriving DecidableEq

/-- The environment a single call to `run` executes in: the input evidence
path, the task's output root directory, how the `self.execute` invocation of
the external tool ends, what the report file in the output directory looks
like afterwards, and how `output_evidence.compress()` ends. -/
structure RunEnv where
  evidence_local_path : String
  output_dir : String
  executeOutcome : StepOutcome
  reportFile : ReportFile
  compressOutcome : StepOutcome

/-- The observable actions `run` performs, in order: a `result.log` call, the
`self.execute` tool invocation, the call to `generate_summary_report`, the
assignment of the rendered report to `result.report_data`, the
`output_evidence.compress()` call, and a terminal `result.close` carrying the
success flag and status string. -/
inductive Event where
  | log (msg : String)
  | executeCall (cmd : String)
  | parseCall
  | setReportData (report : String)
  | compressCall
  | closeCall (success : Bool) (status : String)
deriving DecidableEq

/-- Whether `run` returned its result normally or let an exception propagate
to the task framework. -/
inductive RunOutcome where
  | returned
  | raised
deriving DecidableEq

/-- Python `os.path.basename` for the slash-separated paths used here. -/
def basename (p : String) : String :=
  ((p.splitOn "/").getLast?).getD ""

/-- Python `os.path.join` for the simple two-component case used here. -/
def joinPath (a b : String) : String :=
  a ++ "/" ++ b

/-- The method `BulkExtractorTask.run` as a trace of the events it performs on the
caller's result object and its collaborators, plus whether it returned or
raised.  The `try` block covers everything from `self.execute` to the
successful `result.close`; its `except` clause catches only
`TurbiniaException`, closing the result as failed with the exception's
message.  Exceptions of any other class — in particular every `PyError`
escaping `generate_summary_report` — propagate out of `run` uncaught. -/
def run (env : RunEnv) : List Event × RunOutcome :=
  let output_file_path := joinPath env.output_dir (basename env.evidence_local_path)
  let cmd := "bulk_extractor " ++ env.evidence_local_path ++ " -o " ++ output_file_path
  let evs := [Event.log ("Running Bulk Extractor as [" ++ cmd ++ "]"), Event.executeCall cmd]
  match env.executeOutcome with
  | .turbiniaExc msg => (evs ++ [Event.closeCall false msg], .returned)
  | .otherExc => (evs, .raised)
  | .ok =>
    let evs := evs ++ [Event.parseCall]
    match generate_summary_report env.reportFile with
    | .error _ => (evs, .raised)
    | .ok res =>
      let evs := evs ++ [Event.setReportData res.report, Event.compressCall]
      match env.compressOutcome with
      | .turbiniaExc msg => (evs ++ [Event.closeCall false msg], .returned)
      | .otherExc => (evs, .raised)
      | .ok => (evs ++ [Event.closeCall true res.summary], .returned)

/-- Recognizes the terminal `result.close` events in a trace. -/
def isClose : Event → Bool
  | .closeCall _ _ => true
  | _ => false

/-- How many times `run` closed the result. -/
def closeCount (evs : List Event) : Nat :=
  (evs.filter isClose).length

/-- One scanner result as described by the spec's data model: a feature-file
name, the count element's text, and the decimal value that text denotes. -/
structure ScannerFinding where
  name : String
  countText : String
  count : Int
deriving DecidableEq

/-- The flat child list of a `feature_files` section holding the given
scanner findings: for each finding, a `feature_file` marker element followed
by its name element and its count element, all leaves. -/
def featureEntries (ps : List ScannerFinding) : List Xml :=
  ps.flatMap fun f =>
    [Xml.elem "feature_file" none [],
     Xml.elem "name" (some f.name) [],
     Xml.elem "count" (some f.countText) []]

/-- A report document with every metadata field present and a
`feature_files` section with the given children. -/
def mkReport (prog ver cmd st el : String) (ffChildren : List Xml) : Xml :=
  Xml.elem "dfxml" none
    [Xml.elem "creator" none
      [Xml.elem "program" (some prog) [],
       Xml.elem "version" (some ver) [],
       Xml.elem "execution_environment" none
         [Xml.elem "command_line" (some cmd) [],
          Xml.elem "start_time" (some st) []]],
     Xml.elem "report" none [Xml.elem "elapsed_seconds" (some el) []],
     Xml.elem "feature_files" none ffChildren]

/-- A report document with every metadata field present and no
`feature_files` section. -/
def mkReportNoFF (prog ver cmd st el : String) : Xml :=
  Xml.elem "dfxml" none
    [Xml.elem "creator" none
      [Xml.elem "program" (some prog) [],
       Xml.elem "version" (some ver) [],
       Xml.elem "execution_environment" none
         [Xml.elem "command_line" (some cmd) [],
          Xml.elem "start_time" (some st) []]],
     Xml.elem "report" none [Xml.elem "elapsed_seconds" (some el) []]]

/-- A report document whose `report/elapsed_seconds` field is missing but
whose earlier metadata fields and a populated `feature_files` section are all
present. -/
def mkReportNoElapsed (prog ver cmd st : String) (ffChildren : List Xml) : Xml :=
  Xml.elem "dfxml" none
    [Xml.elem "creator" none
      [Xml.elem "program" (some prog) [],
       Xml.elem "version" (some ver) [],
       Xml.elem "execution_environment" none
         [Xml.elem "command_line" (some cmd) [],
          Xml.elem "start_time" (some st) []]],
     Xml.elem "feature_files" none ffChildren]

lemma iterList_nil : iterList [] = [] := by
  simp [iterList]

lemma iterList_cons (t : String) (txt : Option String) (ch xs : List Xml) :
    iterList (Xml.elem t txt ch :: xs) = Xml.elem t txt ch :: (iterList ch ++ iterList xs) := by
  simp [iterList]

/-- A leaf-only list traverses to itself. -/
lemma iterList_featureEntries (ps : List ScannerFinding) :
    iterList (featureEntries ps) = featureEntries ps := by
  induction ps with
  | nil => simp [featureEntries, iterList_nil]
  | cons p ps ih =>
    simp [featureEntries, iterList_cons, iterList_nil] at *
    simp [ih]

/-- Walking the flat entry list of well-formed scanner findings appends one
bullet per finding and accumulates the sum of the counts. -/
lemma featureLoop_featureEntries (ps : List ScannerFinding) (fs : List String) (c : Int)
    (h : ∀ f ∈ ps, pyInt (some f.countText) = some f.count) :
    featureLoop (featureEntries ps) fs c =
      (fs ++ ps.map (fun f => bullet (f.name ++ ":" ++ f.countText)),
       c + (ps.map ScannerFinding.count).sum, .ok) := by
  induction ps generalizing fs c with
  | nil => simp [featureEntries, featureLoop]
  | cons p ps ih =>
    have hp : pyInt (some p.countText) = some p.count := h p (by simp)
    have hps : ∀ f ∈ ps, pyInt (some f.countText) = some f.count :=
      fun f hf => h f (by simp [hf])
    simp only [featureEntries] at *
    simp only [List.flatMap_cons, List.cons_append, List.nil_append]
    simp only [featureLoop, Xml.tag, Xml.text, formatText, hp]
    simp only [beq_self_eq_true, if_true, ite_true]
    rw [ih _ _ hps]
    simp [add_assoc]

lemma mkReport_find_program (p v c s e : String) (cs : List Xml) :
    (mkReport p v c s e cs).find ["creator", "program"] = some (Xml.elem "program" (some p) []) := rfl

lemma mkReport_find_version (p v c s e : String) (cs : List Xml) :
    (mkReport p v c s e cs).find ["creator", "version"] = some (Xml.elem "version" (some v) []) := rfl

lemma mkReport_find_cmd (p v c s e : String) (cs : List Xml) :
    (mkReport p v c s e cs).find ["creator", "execution_environment", "command_line"] =
      some (Xml.elem "command_line" (some c) []) := rfl

lemma mkReport_find_start (p v c s e : String) (cs : List Xml) :
    (mkReport p v c s e cs).find ["creator", "execution_environment", "start_time"] =
      some (Xml.elem "start_time" (some s) []) := rfl

lemma mkReport_find_elapsed (p v c s e : String) (cs : List Xml) :
    (mkReport p v c s e cs).find ["report", "elapsed_seconds"] =
      some (Xml.elem "elapsed_seconds" (some e) []) := rfl

lemma mkReport_find_ff (p v c s e : String) (cs : List Xml) :
    (mkReport p v c s e cs).find ["feature_files"] = some (Xml.elem "feature_files" none cs) := rfl

/-- C5: when the output directory holds no report file at the fixed relative
location, `generate_summary_report` returns the pair whose two components
both equal the fixed fallback string (and logs nothing). -/
theorem claim_C5_no_report_fallback :
    generate_summary_report .absent =
      .ok ⟨"Execution successful, but the report is not available.",
           "Execution successful, but the report is not available.", []⟩ := rfl

/-- C7: a report file that exists but does not parse makes
`generate_summary_report` raise (`ParseError`), with no fallback result; in
`run` that error propagates to the caller uncaught and the result is not
closed. -/
theorem claim_C7_unparseable_fatal :
    generate_summary_report .unparseable = .error .parseError ∧
    ∀ env : RunEnv, env.executeOutcome = .ok → env.reportFile = .unparseable →
      (run env).2 = .raised ∧ closeCount (run env).1 = 0 := by
  refine ⟨rfl, fun env h1 h2 => ?_⟩
  simp [run, h1, h2, generate_summary_report, closeCount, isClose]

/-- Witness for C7 at a concrete environment: the tool ran, the report file
is unparseable, and `run` raises without closing the result. -/
theorem claim_C7_witness :
    (run ⟨"/e/disk.img", "/out", .ok, .unparseable, .ok⟩).2 = .raised ∧
    closeCount (run ⟨"/e/disk.img", "/out", .ok, .unparseable, .ok⟩).1 = 0 :=
  claim_C7_unparseable_fatal.2 ⟨"/e/disk.img", "/out", .ok, .unparseable, .ok⟩ rfl rfl

/-- C8: `generate_summary_report` is a pure function of the report file's
(parsed) contents: two calls on the same unmodified directory state return
identical report/summary pairs. -/
theorem claim_C8_deterministic :
    ∀ file : ReportFile, generate_summary_report file = generate_summary_report file :=
  fun _ => rfl

/-- The method `Element.iter()` on a `feature_files` element holding flat finding
entries: the element itself, then the entries in order. -/
lemma iter_featureEntries (ps : List ScannerFinding) :
    (Xml.elem "feature_files" none (featureEntries ps)).iter =
      Xml.elem "feature_files" none (featureEntries ps) :: featureEntries ps := by
  simp [Xml.iter, iterList_cons, iterList_nil, iterList_featureEntries]

/-- An element whose tag is not `feature_file` is skipped by the loop. -/
lemma featureLoop_skip (x : Xml) (l : List Xml) (fs : List String) (c : Int)
    (hx : (x.tag == "feature_file") = false) :
    featureLoop (x :: l) fs c = featureLoop l fs c := by
  match l with
  | [] => simp [featureLoop, hx]
  | [y] => simp [featureLoop, hx]
  | y :: z :: zs => simp [featureLoop, hx]

/-- The scanner loop over such an iterator skips the `feature_files` element
itself (its tag is not `feature_file`) and then walks the entries. -/
lemma featureLoop_iter (ps : List ScannerFinding) (fs : List String) (c : Int)
    (h : ∀ f ∈ ps, pyInt (some f.countText) = some f.count) :
    featureLoop (Xml.elem "feature_files" none (featureEntries ps)).iter fs c =
      (fs ++ ps.map (fun f => bullet (f.name ++ ":" ++ f.countText)),
       c + (ps.map ScannerFinding.count).sum, .ok) := by
  rw [iter_featureEntries, featureLoop_skip _ _ _ _ (by simp [Xml.tag]),
    featureLoop_featureEntries ps fs c h]

/-- C2: on a report whose metadata fields are all present and whose
`feature_files` section holds N well-formed (name, count) entries,
`generate_summary_report` returns the summary "{S} artifacts have been
extracted." with S the sum of the N counts, and a report whose section after
the Scanner Results heading is exactly the N bullets "name:count", one per
entry. -/
theorem claim_C2_count_conservation
    (doc pe ve ce se ee : Xml) (ps : List ScannerFinding)
    (hp : doc.find ["creator", "program"] = some pe)
    (hv : doc.find ["creator", "version"] = some ve)
    (hc : doc.find ["creator", "execution_environment", "command_line"] = some ce)
    (hs : doc.find ["creator", "execution_environment", "start_time"] = some se)
    (he : doc.find ["report", "elapsed_seconds"] = some ee)
    (hff : doc.find ["feature_files"] =
      some (Xml.elem "feature_files" none (featureEntries ps)))
    (hcounts : ∀ f ∈ ps, pyInt (some f.countText) = some f.count) :
    generate_summary_report (.parsed doc) =
      .ok ⟨String.intercalate "\n"
        ([heading4 "Bulk Extractor Results", heading5 "Run Summary",
          bullet ("Program: " ++ formatText pe.text ++ " - " ++ formatText ve.text),
          bullet ("Command Line: " ++ formatText ce.text),
          bullet ("Start Time: " ++ formatText se.text),
          bullet ("Elapsed Time: " ++ formatText ee.text),
          heading5 "Scanner Results"] ++
          ps.map (fun f => bullet (f.name ++ ":" ++ f.countText))),
        toString (ps.map ScannerFinding.count).sum ++ " artifacts have been extracted.", []⟩ ∧
    (ps.map (fun f => bullet (f.name ++ ":" ++ f.countText))).length = ps.length := by
  constructor
  · simp only [generate_summary_report, tryBody, hp, hv, hc, hs, he, hff]
    rw [featureLoop_iter ps _ 0 hcounts]
    simp
  · simp

/-- Witness for C2 at the spec's worked example: entries ("email", 5) and
("url", 10) yield the summary "15 artifacts have been extracted." and the two
bullets "email:5" and "url:10". -/
theorem claim_C2_witness :
    generate_summary_report (.parsed (mkReport "bulk_extractor" "1.6.0"
        "bulk_extractor in -o out" "2020-01-01T00:00:00Z" "42"
        (featureEntries [⟨"email", "5", 5⟩, ⟨"url", "10", 10⟩]))) =
      .ok ⟨String.intercalate "\n"
        ([heading4 "Bulk Extractor Results", heading5 "Run Summary",
          bullet ("Program: " ++ formatText (some "bulk_extractor") ++ " - " ++
            formatText (some "1.6.0")),
          bullet ("Command Line: " ++ formatText (some "bulk_extractor in -o out")),
          bullet ("Start Time: " ++ formatText (some "2020-01-01T00:00:00Z")),
          bullet ("Elapsed Time: " ++ formatText (some "42")),
          heading5 "Scanner Results"] ++
          ([⟨"email", "5", 5⟩, ⟨"url", "10", 10⟩] : List ScannerFinding).map
            (fun f => bullet (f.name ++ ":" ++ f.countText))),
        toString (([⟨"email", "5", 5⟩, ⟨"url", "10", 10⟩] : List ScannerFinding).map
          ScannerFinding.count).sum ++ " artifacts have been extracted.", []⟩ :=
  (claim_C2_count_conservation _ _ _ _ _ _ _
    (mkReport_find_program _ _ _ _ _ _) (mkReport_find_version _ _ _ _ _ _)
    (mkReport_find_cmd _ _ _ _ _ _) (mkReport_find_start _ _ _ _ _ _)
    (mkReport_find_elapsed _ _ _ _ _ _) (mkReport_find_ff _ _ _ _ _ _)
    (by decide)).1

lemma mkReportNoElapsed_find_program (p v c s : String) (cs : List Xml) :
    (mkReportNoElapsed p v c s cs).find ["creator", "program"] =
      some (Xml.elem "program" (some p) []) := rfl

lemma mkReportNoElapsed_find_version (p v c s : String) (cs : List Xml) :
    (mkReportNoElapsed p v c s cs).find ["creator", "version"] =
      some (Xml.elem "version" (some v) []) := rfl

lemma mkReportNoElapsed_find_cmd (p v c s : String) (cs : List Xml) :
    (mkReportNoElapsed p v c s cs).find ["creator", "execution_environment", "command_line"] =
      some (Xml.elem "command_line" (some c) []) := rfl

lemma mkReportNoElapsed_find_start (p v c s : String) (cs : List Xml) :
    (mkReportNoElapsed p v c s cs).find ["creator", "execution_environment", "start_time"] =
      some (Xml.elem "start_time" (some s) []) := rfl

lemma mkReportNoElapsed_find_elapsed (p v c s : String) (cs : List Xml) :
    (mkReportNoElapsed p v c s cs).find ["report", "elapsed_seconds"] = none := rfl

/-- C3: a parsed report missing `report/elapsed_seconds` (all earlier
metadata fields present) does not make `generate_summary_report` raise: the
returned report holds exactly the findings appended before that field — the
two headings, the program+version bullet, the command-line bullet and the
start-time bullet — nothing about elapsed time or scanner results follows,
and one diagnostic warning is logged. -/
theorem claim_C3_missing_elapsed_contained
    (doc pe ve ce se : Xml)
    (hp : doc.find ["creator", "program"] = some pe)
    (hv : doc.find ["creator", "version"] = some ve)
    (hc : doc.find ["creator", "execution_environment", "command_line"] = some ce)
    (hs : doc.find ["creator", "execution_environment", "start_time"] = some se)
    (he : doc.find ["report", "elapsed_seconds"] = none) :
    generate_summary_report (.parsed doc) =
      .ok ⟨String.intercalate "\n"
        [heading4 "Bulk Extractor Results", heading5 "Run Summary",
         bullet ("Program: " ++ formatText pe.text ++ " - " ++ formatText ve.text),
         bullet ("Command Line: " ++ formatText ce.text),
         bullet ("Start Time: " ++ formatText se.text)],
        "0 artifacts have been extracted.",
        ["Error parsing feature from Bulk Extractor report: " ++ attrErrMsg]⟩ := by
  simp only [generate_summary_report, tryBody, hp, hv, hc, hs, he]
  rfl

/-- Witness for C3: a concrete report lacking `elapsed_seconds` — its
populated scanner section is dropped from the output as well. -/
theorem claim_C3_witness :
    generate_summary_report (.parsed (mkReportNoElapsed "bulk_extractor" "1.6.0"
        "bulk_extractor in -o out" "2020-01-01T00:00:00Z"
        (featureEntries [⟨"email", "5", 5⟩]))) =
      .ok ⟨String.intercalate "\n"
        [heading4 "Bulk Extractor Results", heading5 "Run Summary",
         bullet ("Program: " ++ formatText (some "bulk_extractor") ++ " - " ++
           formatText (some "1.6.0")),
         bullet ("Command Line: " ++ formatText (some "bulk_extractor in -o out")),
         bullet ("Start Time: " ++ formatText (some "2020-01-01T00:00:00Z"))],
        "0 artifacts have been extracted.",
        ["Error parsing feature from Bulk Extractor report: " ++ attrErrMsg]⟩ :=
  claim_C3_missing_elapsed_contained
    (mkReportNoElapsed "bulk_extractor" "1.6.0" "bulk_extractor in -o out"
      "2020-01-01T00:00:00Z" (featureEntries [⟨"email", "5", 5⟩]))
    (Xml.elem "program" (some "bulk_extractor") []) (Xml.elem "version" (some "1.6.0") [])
    (Xml.elem "command_line" (some "bulk_extractor in -o out") [])
    (Xml.elem "start_time" (some "2020-01-01T00:00:00Z") [])
    (mkReportNoElapsed_find_program _ _ _ _ _) (mkReportNoElapsed_find_version _ _ _ _ _)
    (mkReportNoElapsed_find_cmd _ _ _ _ _) (mkReportNoElapsed_find_start _ _ _ _ _)
    (mkReportNoElapsed_find_elapsed _ _ _ _ _)

/-- The scanner loop over the iterator of an empty `feature_files` element
finds nothing to consume. -/
lemma featureLoop_iter_nil (fs : List String) (c : Int) :
    featureLoop (Xml.elem "feature_files" none []).iter fs c = (fs, c, .ok) := by
  have h1 : (Xml.elem "feature_files" none []).iter = [Xml.elem "feature_files" none []] := by
    simp [Xml.iter, iterList_cons, iterList_nil]
  rw [h1, featureLoop_skip _ _ _ _ (by simp [Xml.tag])]
  simp [featureLoop]

set_option maxRecDepth 16384 in
/-- C6 counterexample: on a report whose `feature_files` section is present
but empty, the code appends the Scanner Results heading — the returned report
does not contain the fixed no-findings line anywhere, contradicting the
claim's "empty or absent" case (the no-findings line appears only when the
section is absent). -/
theorem claim_C6_counterexample :
    generate_summary_report (.parsed (mkReport "p" "v" "c" "s" "e" [])) =
      .ok ⟨String.intercalate "\n"
        [heading4 "Bulk Extractor Results", heading5 "Run Summary",
         bullet ("Program: " ++ formatText (some "p") ++ " - " ++ formatText (some "v")),
         bullet ("Command Line: " ++ formatText (some "c")),
         bullet ("Start Time: " ++ formatText (some "s")),
         bullet ("Elapsed Time: " ++ formatText (some "e")),
         heading5 "Scanner Results"],
        "0 artifacts have been extracted.", []⟩ ∧
    ¬ List.IsInfix "There are no findings to report.".toList
        (String.intercalate "\n"
          [heading4 "Bulk Extractor Results", heading5 "Run Summary",
           bullet ("Program: " ++ formatText (some "p") ++ " - " ++ formatText (some "v")),
           bullet ("Command Line: " ++ formatText (some "c")),
           bullet ("Start Time: " ++ formatText (some "s")),
           bullet ("Elapsed Time: " ++ formatText (some "e")),
           heading5 "Scanner Results"]).toList := by
  constructor
  · simp only [generate_summary_report, tryBody, mkReport_find_program, mkReport_find_version,
      mkReport_find_cmd, mkReport_find_start, mkReport_find_elapsed, mkReport_find_ff]
    rw [featureLoop_iter_nil]
    rfl
  · decide

/-- C6 as amended: with all metadata fields present, an *absent*
`feature_files` section yields the fixed no-findings line and the summary
"0 artifacts have been extracted.", while a *present but empty* section
yields the Scanner Results heading with zero bullets (and no no-findings
line) and the same "0 artifacts" summary. -/
theorem claim_C6_amended
    (doc pe ve ce se ee : Xml)
    (hp : doc.find ["creator", "program"] = some pe)
    (hv : doc.find ["creator", "version"] = some ve)
    (hc : doc.find ["creator", "execution_environment", "command_line"] = some ce)
    (hs : doc.find ["creator", "execution_environment", "start_time"] = some se)
    (he : doc.find ["report", "elapsed_seconds"] = some ee) :
    (doc.find ["feature_files"] = none →
      generate_summary_report (.parsed doc) =
        .ok ⟨String.intercalate "\n"
          [heading4 "Bulk Extractor Results", heading5 "Run Summary",
           bullet ("Program: " ++ formatText pe.text ++ " - " ++ formatText ve.text),
           bullet ("Command Line: " ++ formatText ce.text),
           bullet ("Start Time: " ++ formatText se.text),
           bullet ("Elapsed Time: " ++ formatText ee.text),
           heading5 "There are no findings to report."],
          "0 artifacts have been extracted.", []⟩) ∧
    (doc.find ["feature_files"] = some (Xml.elem "feature_files" none []) →
      generate_summary_report (.parsed doc) =
        .ok ⟨String.intercalate "\n"
          [heading4 "Bulk Extractor Results", heading5 "Run Summary",
           bullet ("Program: " ++ formatText pe.text ++ " - " ++ formatText ve.text),
           bullet ("Command Line: " ++ formatText ce.text),
           bullet ("Start Time: " ++ formatText se.text),
           bullet ("Elapsed Time: " ++ formatText ee.text),
           heading5 "Scanner Results"],
          "0 artifacts have been extracted.", []⟩) := by
  constructor
  · intro hff
    simp only [generate_summary_report, tryBody, hp, hv, hc, hs, he, hff]
    rfl
  · intro hff
    simp only [generate_summary_report, tryBody, hp, hv, hc, hs, he, hff]
    rw [featureLoop_iter_nil]
    rfl

/-- Witness for C6's amended statement: both the absent-section and the
empty-section cases at concrete reports. -/
theorem claim_C6_witness :
    generate_summary_report (.parsed (mkReportNoFF "p" "v" "c" "s" "e")) =
      .ok ⟨String.intercalate "\n"
        [heading4 "Bulk Extractor Results", heading5 "Run Summary",
         bullet ("Program: " ++ formatText (some "p") ++ " - " ++ formatText (some "v")),
         bullet ("Command Line: " ++ formatText (some "c")),
         bullet ("Start Time: " ++ formatText (some "s")),
         bullet ("Elapsed Time: " ++ formatText (some "e")),
         heading5 "There are no findings to report."],
        "0 artifacts have been extracted.", []⟩ ∧
    generate_summary_report (.parsed (mkReport "p" "v" "c" "s" "e" [])) =
      .ok ⟨String.intercalate "\n"
        [heading4 "Bulk Extractor Results", heading5 "Run Summary",
         bullet ("Program: " ++ formatText (some "p") ++ " - " ++ formatText (some "v")),
         bullet ("Command Line: " ++ formatText (some "c")),
         bullet ("Start Time: " ++ formatText (some "s")),
         bullet ("Elapsed Time: " ++ formatText (some "e")),
         heading5 "Scanner Results"],
        "0 artifacts have been extracted.", []⟩ :=
  ⟨(claim_C6_amended (mkReportNoFF "p" "v" "c" "s" "e") _ _ _ _ _
      rfl rfl rfl rfl rfl).1 rfl,
   (claim_C6_amended (mkReport "p" "v" "c" "s" "e" []) _ _ _ _ _
      (mkReport_find_program _ _ _ _ _ _) (mkReport_find_version _ _ _ _ _ _)
      (mkReport_find_cmd _ _ _ _ _ _) (mkReport_find_start _ _ _ _ _ _)
      (mkReport_find_elapsed _ _ _ _ _ _)).2 (mkReport_find_ff _ _ _ _ _ _)⟩

/-- A parsed report whose metadata fields are all present and whose scanner
loop ends in the count-conversion error makes `generate_summary_report`
propagate that error: the `except` clause catches only `AttributeError`. -/
lemma gsr_loop_convError (doc pe ve ce se ee ff : Xml) (extra : List String)
    (hp : doc.find ["creator", "program"] = some pe)
    (hv : doc.find ["creator", "version"] = some ve)
    (hc : doc.find ["creator", "execution_environment", "command_line"] = some ce)
    (hs : doc.find ["creator", "execution_environment", "start_time"] = some se)
    (he : doc.find ["report", "elapsed_seconds"] = some ee)
    (hff : doc.find ["feature_files"] = some ff)
    (hloop : ∀ fs c, featureLoop ff.iter fs c = (fs ++ extra, c, ExtOutcome.convError)) :
    generate_summary_report (.parsed doc) = .error .convError := by
  simp only [generate_summary_report, tryBody, hp, hv, hc, hs, he, hff]
  rw [hloop]

/-- A parsed report whose metadata fields are all present and whose scanner
loop ends in iterator exhaustion makes `generate_summary_report` propagate
`StopIteration`: the `except` clause catches only `AttributeError`. -/
lemma gsr_loop_stopIteration (doc pe ve ce se ee ff : Xml)
    (hp : doc.find ["creator", "program"] = some pe)
    (hv : doc.find ["creator", "version"] = some ve)
    (hc : doc.find ["creator", "execution_environment", "command_line"] = some ce)
    (hs : doc.find ["creator", "execution_environment", "start_time"] = some se)
    (he : doc.find ["report", "elapsed_seconds"] = some ee)
    (hff : doc.find ["feature_files"] = some ff)
    (hloop : ∀ fs c, featureLoop ff.iter fs c = (fs, c, ExtOutcome.stopIteration)) :
    generate_summary_report (.parsed doc) = .error .stopIteration := by
  simp only [generate_summary_report, tryBody, hp, hv, hc, hs, he, hff]
  rw [hloop]

/-- C9: a report whose scanner section holds a (name, count) pair whose count
text is not a decimal integer makes `generate_summary_report` raise the
conversion error from `int(count.text)` uncaught (the `except` clause
tolerates only `AttributeError`), instead of returning a partial report. -/
theorem claim_C9_bad_count_raises :
    generate_summary_report (.parsed (mkReport "p" "v" "c" "s" "e"
      [Xml.elem "feature_file" none [],
       Xml.elem "name" (some "email") [],
       Xml.elem "count" (some "abc") []])) = .error .convError :=
  gsr_loop_convError
    (mkReport "p" "v" "c" "s" "e"
      [Xml.elem "feature_file" none [],
       Xml.elem "name" (some "email") [],
       Xml.elem "count" (some "abc") []])
    (Xml.elem "program" (some "p") []) (Xml.elem "version" (some "v") [])
    (Xml.elem "command_line" (some "c") []) (Xml.elem "start_time" (some "s") [])
    (Xml.elem "elapsed_seconds" (some "e") [])
    (Xml.elem "feature_files" none
      [Xml.elem "feature_file" none [],
       Xml.elem "name" (some "email") [],
       Xml.elem "count" (some "abc") []])
    [bullet "email:abc"]
    (mkReport_find_program _ _ _ _ _ _) (mkReport_find_version _ _ _ _ _ _)
    (mkReport_find_cmd _ _ _ _ _ _) (mkReport_find_start _ _ _ _ _ _)
    (mkReport_find_elapsed _ _ _ _ _ _) (mkReport_find_ff _ _ _ _ _ _)
    (fun fs c => by
      rw [show (Xml.elem "feature_files" none
          [Xml.elem "feature_file" none [],
           Xml.elem "name" (some "email") [],
           Xml.elem "count" (some "abc") []]).iter =
          [Xml.elem "feature_files" none
            [Xml.elem "feature_file" none [],
             Xml.elem "name" (some "email") [],
             Xml.elem "count" (some "abc") []],
           Xml.elem "feature_file" none [],
           Xml.elem "name" (some "email") [],
           Xml.elem "count" (some "abc") []] from by
        simp [Xml.iter, iterList_cons, iterList_nil]]
      rfl)

/-- C10: a report whose scanner section ends with a dangling `feature_file`
marker not followed by two more elements makes the positional `next` calls
raise `StopIteration` uncaught, so `generate_summary_report` raises instead
of returning. -/
theorem claim_C10_dangling_marker_raises :
    generate_summary_report (.parsed (mkReport "p" "v" "c" "s" "e"
      [Xml.elem "feature_file" none []])) = .error .stopIteration :=
  gsr_loop_stopIteration
    (mkReport "p" "v" "c" "s" "e" [Xml.elem "feature_file" none []])
    (Xml.elem "program" (some "p") []) (Xml.elem "version" (some "v") [])
    (Xml.elem "command_line" (some "c") []) (Xml.elem "start_time" (some "s") [])
    (Xml.elem "elapsed_seconds" (some "e") [])
    (Xml.elem "feature_files" none [Xml.elem "feature_file" none []])
    (mkReport_find_program _ _ _ _ _ _) (mkReport_find_version _ _ _ _ _ _)
    (mkReport_find_cmd _ _ _ _ _ _) (mkReport_find_start _ _ _ _ _ _)
    (mkReport_find_elapsed _ _ _ _ _ _) (mkReport_find_ff _ _ _ _ _ _)
    (fun fs c => by
      rw [show (Xml.elem "feature_files" none
          [Xml.elem "feature_file" none []]).iter =
          [Xml.elem "feature_files" none [Xml.elem "feature_file" none []],
           Xml.elem "feature_file" none []] from by
        simp [Xml.iter, iterList_cons, iterList_nil]]
      rfl)

/-- C1 counterexample: with a successfully executed tool run whose report
file exists but is unparseable, `run` lets the parse error propagate (it is
not a `TurbiniaException`) and the result is closed zero times — not exactly
once — and `run` does not return. -/
theorem claim_C1_counterexample :
    (run ⟨"/e/disk.img", "/out", .ok, .unparseable, .ok⟩).2 = .raised ∧
    closeCount (run ⟨"/e/disk.img", "/out", .ok, .unparseable, .ok⟩).1 = 0 := by
  constructor
  · rfl
  · rfl

/-- C1 as amended: on every execution path of `run`, the result is closed at
most once; it is closed exactly once precisely on the paths where `run`
returns (successful completion, or a `TurbiniaException` from the tool
invocation or compression caught by the `except` clause), while on the paths
where a non-`TurbiniaException` escapes — an unparseable report file, a
count-conversion error, a dangling marker, or a non-task-level failure of a
later step — the result is closed zero times and the exception propagates
instead of `run` returning. -/
theorem claim_C1_close_exactly_once_iff_returns (env : RunEnv) :
    closeCount (run env).1 ≤ 1 ∧
    ((run env).2 = .returned ↔ closeCount (run env).1 = 1) := by
  cases hex : env.executeOutcome with
  | turbiniaExc msg =>
    simp [run, hex, closeCount, isClose, List.filter]
  | otherExc =>
    simp [run, hex, closeCount, isClose, List.filter]
  | ok =>
    cases hg : generate_summary_report env.reportFile with
    | error e =>
      simp [run, hex, hg, closeCount, isClose, List.filter]
    | ok res =>
      cases hcomp : env.compressOutcome with
      | turbiniaExc msg =>
        simp [run, hex, hg, hcomp, closeCount, isClose, List.filter]
      | otherExc =>
        simp [run, hex, hg, hcomp, closeCount, isClose, List.filter]
      | ok =>
        simp [run, hex, hg, hcomp, closeCount, isClose, List.filter]

/-- C4: when the tool invocation raises a task-level exception
(`TurbiniaException`) with some message, `run` performs no call to
`generate_summary_report`, closes the result exactly once with
`success = false` and status equal to that message, and returns. -/
theorem claim_C4_execute_failure_isolation (env : RunEnv) (msg : String)
    (hex : env.executeOutcome = .turbiniaExc msg) :
    Event.parseCall ∉ (run env).1 ∧
    (run env).1.filter isClose = [Event.closeCall false msg] ∧
    (run env).2 = .returned := by
  refine ⟨?_, ?_, ?_⟩ <;> simp [run, hex, isClose, List.filter]

/-- Witness for C4 at a concrete environment: the tool invocation raises a
`TurbiniaException` with message "execution failed". -/
theorem claim_C4_witness :
    Event.parseCall ∉
      (run ⟨"/e/disk.img", "/out", .turbiniaExc "execution failed", .absent, .ok⟩).1 ∧
    (run ⟨"/e/disk.img", "/out", .turbiniaExc "execution failed", .absent, .ok⟩).1.filter isClose =
      [Event.closeCall false "execution failed"] ∧
    (run ⟨"/e/disk.img", "/out", .turbiniaExc "execution failed", .absent, .ok⟩).2 = .returned :=
  claim_C4_execute_failure_isolation
    ⟨"/e/disk.img", "/out", .turbiniaExc "execution failed", .absent, .ok⟩
    "execution failed" rfl

end BulkExtractor
